import Mathlib

/-!
Shallow embedding of the nwbinspector excerpt:
  - `checks/general.py` (check_name_slashes, check_description)
  - `utils.py` (format_byte_size, check_regular_series, is_ascending_series,
    get_thread_max_workers)
  - the negative-spike-times check exercised by `tests/unit_tests/test_ecephys.py`
    (its module `checks/ecephys.py` is not part of the excerpt; it is modelled
    from the spec and from its unit test).

Python strings are embedded as Lean `String`; Python floats as `ℚ`;
Python `None`-able values as `Option`; an attribute that may be absent on an
object is an `Option` field (with `Option (Option String)` where Python
distinguishes an absent attribute from an attribute holding `None`).
A Python function that can raise becomes `Except`.
-/

/-- Importance levels, ordered `BEST_PRACTICE_SUGGESTION < BEST_PRACTICE_VIOLATION
< CRITICAL`, declared once per check at registration time. -/
inductive Importance where
  | BEST_PRACTICE_SUGGESTION
  | BEST_PRACTICE_VIOLATION
  | CRITICAL
deriving DecidableEq

/-- Severity levels, ordered `NO_SEVERITY < LOW < HIGH`. -/
inductive Severity where
  | NO_SEVERITY
  | LOW
  | HIGH
deriving DecidableEq

/-- Modelled from the spec: `InspectorMessage` is the immutable record produced by
every triggered diagnostic (message text, importance, severity, provenance). -/
structure InspectorMessage where
  message : String
  importance : Importance
  severity : Severity
  check_function_name : String
  object_type : String
  object_name : String
  location : String
deriving DecidableEq

/-- Modelled from the spec: the `register_check` decorator (from the
`register_checks` module, which is not part of the excerpt) records, for each
check function, a spec carrying the declared importance at registration time. -/
structure CheckSpec where
  name : String
  importance : Importance
deriving DecidableEq

/-- An inspected object-graph node as seen by the checks in `checks/general.py`:
only its `name` and `description` attributes matter, each possibly absent
(`hasattr` false = `none`); a present `description` may itself be Python `None`. -/
structure PyObject where
  name : Option String
  description : Option (Option String)

/-- Python `s.strip(chars)`: remove leading and trailing characters belonging to
`chars`. -/
def pyStrip (chars : List Char) (s : String) : String :=
  ⟨(((s.data.dropWhile fun c => decide (c ∈ chars)).reverse.dropWhile
      fun c => decide (c ∈ chars)).reverse)⟩

/-- Python `s.lower()` (the placeholders involved are ASCII, where
`Char.toLower` agrees with Python). -/
def pyLower (s : String) : String := ⟨s.data.map Char.toLower⟩

/-- `COMMON_DESCRIPTION_PLACEHOLDERS` from `checks/general.py`. -/
def COMMON_DESCRIPTION_PLACEHOLDERS : List String := ["no description", "no desc", "none"]

/-- Registration of `check_name_slashes`:
`@register_check(importance=Importance.CRITICAL, neurodata_type=None)`. -/
def check_name_slashes_registration : CheckSpec :=
  ⟨"check_name_slashes", Importance.CRITICAL⟩

/-- `check_name_slashes` from `checks/general.py`: fires when the object has a
`name` attribute containing a forward or backward slash. The check body only
supplies the message text; the decorator-filled fields are immaterial here. -/
def check_name_slashes (obj : PyObject) : Option String :=
  match obj.name with
  | none => none
  | some nm =>
    if '/' ∈ nm.data ∨ '\\' ∈ nm.data then
      some "Object name contains slashes, ."
    else none

/-- Registration of `check_description`:
`@register_check(importance=Importance.BEST_PRACTICE_SUGGESTION, neurodata_type=None)`. -/
def check_description_registration : CheckSpec :=
  ⟨"check_description", Importance.BEST_PRACTICE_SUGGESTION⟩

/-- `check_description` from `checks/general.py`: returns without a finding when
the attribute is absent; reports a missing description when it is `None` or
equal to `""` after `.strip(" ")`; reports a placeholder when, after `.lower()`
and `.strip(".")`, it is one of the recognized placeholders. -/
def check_description (obj : PyObject) : Option String :=
  match obj.description with
  | none => none
  | some none => some "Description is missing."
  | some (some d) =>
    if pyStrip [' '] d = "" then
      some "Description is missing."
    else if pyStrip ['.'] (pyLower d) ∈ COMMON_DESCRIPTION_PLACEHOLDERS then
      some ("Description (" ++ d ++ ") is a placeholder.")
    else none

/-- The prefix ladder of `format_byte_size` in `utils.py`. -/
def prefixList : List String := ["", "K", "M", "G", "T", "P", "E", "Z"]

/-- Python round-half-to-even of a rational to an integer, as used by float
formatting and by `numpy.round`. -/
def roundHalfEven (x : ℚ) : ℤ :=
  let f := ⌊x⌋
  if x - f < 1 / 2 then f
  else if 1 / 2 < x - f then f + 1
  else if f % 2 = 0 then f else f + 1

/-- Python `f"{num:3.2f}"`: fixed-point rendering of `num` with two digits after
the decimal point (sign, integer part, point, zero-padded two-digit fraction).
This rounds the exact rational half-to-even; the program rounds the exact value
of the stored binary64 double, which differs when the argument is not exactly a
double (e.g. the program prints 2.67 for 2675/1000.0, whose double is slightly
below 2.675). No theorem below depends on this function's value. -/
def pyFormat2f (q : ℚ) : String :=
  let n : ℤ := roundHalfEven (q * 100)
  let sign := if n < 0 then "-" else ""
  let m := n.natAbs
  sign ++ toString (m / 100) ++ "." ++
    (if m % 100 < 10 then "0" else "") ++ toString (m % 100)

/-- The `for prefix in prefixes` loop of `format_byte_size`: emit the current
value with the head prefix when its magnitude is below `order`, otherwise divide
by `order` and continue; after exhausting the ladder fall through to `Y`. The
division is exact here, whereas the program divides (and, on the first
iteration, converts the integer) in binary64 with rounding, so on boundary
inputs the program can take a different branch. No theorem below depends on
this loop's value. -/
def sizeLoop (num : ℚ) (order : ℚ) (suffix : String) : List String → String
  | [] => pyFormat2f num ++ "Y" ++ suffix
  | p :: ps =>
    if |num| < order then pyFormat2f num ++ p ++ suffix
    else sizeLoop (num / order) order suffix ps

/-- `format_byte_size` from `utils.py`. The `ValueError` raised on an
unrecognized `units` argument becomes `Except.error` (the message is reproduced
without its quote characters). The division loop embeds Python's binary64
float arithmetic as exact rational arithmetic, which diverges from the program
on rounding-sensitive byte counts (e.g. the program prints 2.67KB at 2675 and
1.00EB at 10^18 - 1, where exact arithmetic gives 2.68KB and the P prefix);
the theorems below therefore rely only on the float-independent units
validation, which the program performs by exact string comparison before any
arithmetic. -/
def format_byte_size (byte_size : ℤ) (units : String) : Except String String :=
  if units = "SI" then
    Except.ok (sizeLoop (byte_size : ℚ) 1000 "B" prefixList)
  else if units = "binary" then
    Except.ok (sizeLoop (byte_size : ℚ) 1024 "iB" prefixList)
  else
    Except.error
      "units argument must be either SI (for orders of 1000) or binary (for orders of 1024)."

/-- `numpy.diff` on a one-dimensional array: consecutive differences
`series[i+1] - series[i]` (exact; only properties preserved by binary64
subtraction — the length of the result and the sign of each difference — are
used by the theorems below). -/
def npDiff (series : List ℚ) : List ℚ :=
  List.zipWith (fun a b => a - b) series.tail series

/-- `numpy.round(x, decimals)` on one element, idealized as exact half-even
rounding at the given number of decimal places. The program's binary64
`rint(x * 10^decimals) / 10^decimals` can round differently on
rounding-sensitive doubles (e.g. `np.round(5e-10, 9)` is `0.0`), so the
theorems below use this function only where its exact value is irrelevant
(series with fewer than two elements have no differences to round). -/
def roundDec (decimals : ℕ) (x : ℚ) : ℚ :=
  (roundHalfEven (x * 10 ^ decimals) : ℚ) / 10 ^ decimals

/-- `check_regular_series` from `utils.py`:
`len(np.unique(np.diff(series).round(decimals=tolerance_decimals))) == 1`.
`np.unique` sorts and removes duplicates; only the count of distinct values
matters, so it is embedded as `List.dedup`. Because `roundDec` idealizes
`np.round`, the truth value can differ from the program on rounding-sensitive
inputs; the theorems below rely only on the behaviour for series with fewer
than two elements, where no rounding occurs. -/
def check_regular_series (series : List ℚ) (tolerance_decimals : ℕ) : Bool :=
  ((npDiff series).map (roundDec tolerance_decimals)).dedup.length == 1

/-- `is_ascending_series` from `utils.py`:
`np.all(np.diff(series[:nelems]) > 0)`; `series[:None]` is the whole series. -/
def is_ascending_series (series : List ℚ) (nelems : Option ℕ) : Bool :=
  (npDiff (series.take (nelems.getD series.length))).all fun d => decide (0 < d)

/-- `get_thread_max_workers` from `utils.py` (defaults `n_jobs=1`,
`workers_per_thread=5`): `None` for the `-1` sentinel, otherwise the product. -/
def get_thread_max_workers (n_jobs : ℤ) (workers_per_thread : ℤ) : Option ℤ :=
  if n_jobs ≠ -1 then some (n_jobs * workers_per_thread) else none

/-- Modelled from the spec: the message returned by `check_negative_spike_times`
(module `checks/ecephys.py`, absent from the excerpt), with the field values
its unit test `test_check_negative_spike_times_some_negative` asserts. -/
def negative_spike_times_message : InspectorMessage :=
  ⟨"This Units table contains negative spike times. Time should generally be aligned to the earliest time reference in the NWBFile.",
    Importance.BEST_PRACTICE_VIOLATION, Severity.NO_SEVERITY,
    "check_negative_spike_times", "Units", "Units", "/"⟩

/-- Modelled from the spec: `check_negative_spike_times` (module
`checks/ecephys.py`, absent from the excerpt). A Units table is embedded as the
list of its units' spike-time lists; per the spec, a table where at least one
group's values include a negative entry yields exactly one finding, otherwise
(including the empty table) none. -/
def check_negative_spike_times (units_table : List (List ℚ)) : Option InspectorMessage :=
  if units_table.any (fun spike_times => spike_times.any fun t => decide (t < 0)) then
    some negative_spike_times_message
  else none

/-- The spec's notion of a description being case/period-insensitively equal to a
placeholder, read literally: compare after lowercasing and disregarding every
period character. -/
def casePeriodInsensitiveForm (s : String) : String :=
  ⟨(pyLower s).data.filter fun c => c != '.'⟩

theorem dropWhile_forall_iff (p : Char → Bool) :
    ∀ l : List Char, (∀ c ∈ l.dropWhile p, p c = true) ↔ (∀ c ∈ l, p c = true) := by
  intro l
  induction l with
  | nil => simp
  | cons a t ih =>
    by_cases h : p a = true
    · rw [List.dropWhile_cons_of_pos h, ih]
      simp [h]
    · rw [List.dropWhile_cons_of_neg h]

theorem pyStrip_eq_empty_iff (cs : List Char) (s : String) :
    pyStrip cs s = "" ↔ ∀ c ∈ s.data, c ∈ cs := by
  have hdata : (pyStrip cs s).data =
      ((s.data.dropWhile fun c => decide (c ∈ cs)).reverse.dropWhile
        fun c => decide (c ∈ cs)).reverse := rfl
  rw [String.ext_iff, hdata]
  show _ = ([] : List Char) ↔ _
  rw [List.reverse_eq_nil_iff, List.dropWhile_eq_nil_iff]
  constructor
  · intro h c hc
    have h2 : ∀ x ∈ s.data.dropWhile fun c => decide (c ∈ cs), decide (x ∈ cs) = true := by
      intro x hx
      simpa using h x (List.mem_reverse.mpr hx)
    simpa using (dropWhile_forall_iff _ s.data).mp h2 c hc
  · intro h x hx
    have h2 := (dropWhile_forall_iff (fun c => decide (c ∈ cs)) s.data).mpr
      (by intro c hc; simpa using h c hc)
    simpa using h2 x (List.mem_reverse.mp hx)

/-- Claim C1 (amended): for every object whose `description` attribute is a
string, `check_description` returns exactly one finding — and the check is
registered at BEST_PRACTICE_SUGGESTION importance — precisely when the
description is empty or consists only of space characters, or is equal to one
of the recognized placeholders after lowercasing and stripping leading and
trailing periods; for any other string description it returns no finding. -/
theorem check_description_spec (obj : PyObject) (d : String)
    (hd : obj.description = some (some d)) :
    check_description_registration.importance = Importance.BEST_PRACTICE_SUGGESTION ∧
    ((check_description obj).isSome = true ↔
      ((∀ c ∈ d.data, c = ' ') ∨
        pyStrip ['.'] (pyLower d) ∈ COMMON_DESCRIPTION_PLACEHOLDERS)) := by
  refine ⟨rfl, ?_⟩
  unfold check_description
  rw [hd]
  show (if pyStrip [' '] d = "" then some "Description is missing."
      else if pyStrip ['.'] (pyLower d) ∈ COMMON_DESCRIPTION_PLACEHOLDERS then
        some ("Description (" ++ d ++ ") is a placeholder.")
      else none).isSome = true ↔ _
  by_cases h1 : pyStrip [' '] d = ""
  · rw [if_pos h1]
    simp only [Option.isSome_some, true_iff]
    left
    intro c hc
    simpa using (pyStrip_eq_empty_iff [' '] d).mp h1 c hc
  · rw [if_neg h1]
    by_cases h2 : pyStrip ['.'] (pyLower d) ∈ COMMON_DESCRIPTION_PLACEHOLDERS
    · rw [if_pos h2]
      simp only [Option.isSome_some, true_iff]
      exact Or.inr h2
    · rw [if_neg h2]
      simp only [Option.isSome_none, Bool.false_eq_true, false_iff]
      rintro (hsp | hpl)
      · exact h1 ((pyStrip_eq_empty_iff [' '] d).mpr (by intro c hc; simpa using hsp c hc))
      · exact h2 hpl

/-- Witness for C1: applies the amended theorem at the placeholder description
`"no desc"`, which yields a finding. -/
theorem check_description_spec_witness :
    (check_description ⟨none, some (some "no desc")⟩).isSome = true :=
  ((check_description_spec ⟨none, some (some "no desc")⟩ "no desc" rfl).2).mpr
    (Or.inr (by decide))

/-- Counterexample for C1 as stated: the description `"\t"` is nonempty and
whitespace-only, yet `check_description` yields no finding (the code strips only
space characters); and `"no.ne"` is case/period-insensitively equal to the
placeholder `"none"` (lowercasing and deleting every period gives `"none"`),
yet yields no finding (the code strips only leading and trailing periods). -/
theorem check_description_counterexample :
    (check_description ⟨none, some (some "\t")⟩ = none ∧
      "\t" ≠ "" ∧ ∀ c ∈ "\t".data, c.isWhitespace) ∧
    (check_description ⟨none, some (some "no.ne")⟩ = none ∧
      casePeriodInsensitiveForm "no.ne" ∈ COMMON_DESCRIPTION_PLACEHOLDERS) := by
  refine ⟨⟨by decide, by decide, by decide⟩, by decide, by decide⟩

/-- Claim C2: for every object with a `name` attribute, `check_name_slashes`
returns exactly one finding — and the check is registered at CRITICAL
importance — exactly when the name contains a forward slash or a backslash;
for every name containing neither character it returns no finding. -/
theorem check_name_slashes_spec (obj : PyObject) (nm : String)
    (h : obj.name = some nm) :
    check_name_slashes_registration.importance = Importance.CRITICAL ∧
    ((check_name_slashes obj).isSome = true ↔ ('/' ∈ nm.data ∨ '\\' ∈ nm.data)) := by
  refine ⟨rfl, ?_⟩
  unfold check_name_slashes
  rw [h]
  show (if '/' ∈ nm.data ∨ '\\' ∈ nm.data then
      some "Object name contains slashes, ." else none).isSome = true ↔ _
  by_cases hs : '/' ∈ nm.data ∨ '\\' ∈ nm.data
  · rw [if_pos hs]
    simpa using hs
  · rw [if_neg hs]
    simpa using hs

/-- Witness for C2: a name containing a forward slash yields a finding and a
plain name yields none. -/
theorem check_name_slashes_spec_witness :
    (check_name_slashes ⟨some "a/b", none⟩).isSome = true ∧
    ¬ (check_name_slashes ⟨some "ab", none⟩).isSome = true := by
  constructor
  · exact ((check_name_slashes_spec ⟨some "a/b", none⟩ "a/b" rfl).2).mpr
      (Or.inl (by decide))
  · intro hc
    have := ((check_name_slashes_spec ⟨some "ab", none⟩ "ab" rfl).2).mp hc
    revert this
    decide

/-- Claim C3: for every object lacking a `description` attribute,
`check_description` returns no finding (it returns without touching the absent
attribute, so no fault is possible). -/
theorem check_description_absent (obj : PyObject)
    (h : obj.description = none) : check_description obj = none := by
  unfold check_description
  rw [h]

/-- Witness for C3: an object with a name but no description attribute. -/
theorem check_description_absent_witness :
    check_description ⟨some "x", none⟩ = none :=
  check_description_absent ⟨some "x", none⟩ rfl

/-- Claim C4: `check_negative_spike_times` yields no finding for an empty Units
table or one whose spike times are all non-negative; when at least one unit's
spike times include a negative entry it yields exactly one finding with the
spec's message, at BEST_PRACTICE_VIOLATION importance and NO_SEVERITY severity. -/
theorem check_negative_spike_times_spec :
    check_negative_spike_times [] = none ∧
    (∀ ut : List (List ℚ), (∀ st ∈ ut, ∀ t ∈ st, 0 ≤ t) →
      check_negative_spike_times ut = none) ∧
    (∀ ut : List (List ℚ), (∃ st ∈ ut, ∃ t ∈ st, t < 0) →
      check_negative_spike_times ut = some negative_spike_times_message) ∧
    negative_spike_times_message.message =
      "This Units table contains negative spike times. Time should generally be aligned to the earliest time reference in the NWBFile." ∧
    negative_spike_times_message.importance = Importance.BEST_PRACTICE_VIOLATION ∧
    negative_spike_times_message.severity = Severity.NO_SEVERITY := by
  refine ⟨rfl, ?_, ?_, rfl, rfl, rfl⟩
  · intro ut h
    have hc : ¬ (ut.any (fun spike_times => spike_times.any fun t => decide (t < 0)) = true) := by
      intro hcon
      rw [List.any_eq_true] at hcon
      obtain ⟨st, hst, hany⟩ := hcon
      rw [List.any_eq_true] at hany
      obtain ⟨t, ht, hlt⟩ := hany
      rw [decide_eq_true_eq] at hlt
      exact absurd (h st hst t ht) (not_le.mpr hlt)
    rw [check_negative_spike_times, if_neg hc]
  · rintro ut ⟨st, hst, t, ht, hlt⟩
    rw [check_negative_spike_times, if_pos]
    simp only [List.any_eq_true, decide_eq_true_eq]
    exact ⟨st, hst, t, ht, hlt⟩

/-- Witness for C4: the inputs of the unit tests — a table of non-negative spike
times yields no finding, a table with a negative spike time yields the finding. -/
theorem check_negative_spike_times_spec_witness :
    check_negative_spike_times [[0, 1/10], [1]] = none ∧
    check_negative_spike_times [[0, 1/10], [-1]] = some negative_spike_times_message := by
  constructor
  · refine check_negative_spike_times_spec.2.1 [[0, 1/10], [1]] ?_
    intro st hst t ht
    fin_cases hst <;> fin_cases ht <;> norm_num
  · exact check_negative_spike_times_spec.2.2.1 [[0, 1/10], [-1]]
      ⟨[-1], by norm_num, -1, by norm_num, by norm_num⟩

/-- Claim C6: for every units argument other than SI and binary,
`format_byte_size` raises a usage fault (ValueError) and returns no formatted
string; it never falls back to a default convention. -/
theorem format_byte_size_invalid_units (b : ℤ) (u : String)
    (h1 : u ≠ "SI") (h2 : u ≠ "binary") :
    format_byte_size b u =
      Except.error
        "units argument must be either SI (for orders of 1000) or binary (for orders of 1024)." := by
  rw [format_byte_size, if_neg h1, if_neg h2]

/-- Witness for C6: the units argument "foo" is rejected. -/
theorem format_byte_size_invalid_units_witness :
    format_byte_size 0 "foo" =
      Except.error
        "units argument must be either SI (for orders of 1000) or binary (for orders of 1024)." :=
  format_byte_size_invalid_units 0 "foo" (by decide) (by decide)

/-- Claim C7: `get_thread_max_workers` returns `n_jobs * workers_per_thread`
for every positive `n_jobs` (with the default multiplier 5), and `None` for the
sentinel `n_jobs = -1`, leaving the pool size unbounded. -/
theorem get_thread_max_workers_spec :
    (∀ n w : ℤ, 0 < n → get_thread_max_workers n w = some (n * w)) ∧
    (∀ n : ℤ, 0 < n → get_thread_max_workers n 5 = some (n * 5)) ∧
    (∀ w : ℤ, get_thread_max_workers (-1) w = none) := by
  refine ⟨fun n w hn => ?_, fun n hn => ?_, fun w => ?_⟩
  · rw [get_thread_max_workers, if_pos (by omega)]
  · rw [get_thread_max_workers, if_pos (by omega)]
  · rw [get_thread_max_workers, if_neg (by omega)]

/-- Witness for C7: three jobs with the default multiplier give fifteen workers;
the sentinel gives `None`. -/
theorem get_thread_max_workers_spec_witness :
    get_thread_max_workers 3 5 = some (3 * 5) ∧
    get_thread_max_workers (-1) 5 = none :=
  ⟨get_thread_max_workers_spec.1 3 5 (by norm_num),
    get_thread_max_workers_spec.2.2 5⟩

/-- Claim C9: `is_ascending_series` reports a series as ascending only when
every consecutive difference over the considered prefix (the first `nelems`
elements, or the whole series when `nelems` is unset) is strictly positive; in
particular it returns `False` on a series with two equal adjacent elements, so
ascent is strict rather than non-decreasing. -/
theorem is_ascending_series_strict :
    (∀ (series : List ℚ) (nelems : Option ℕ), is_ascending_series series nelems = true →
      ∀ d ∈ npDiff (series.take (nelems.getD series.length)), 0 < d) ∧
    is_ascending_series [(1 : ℚ), 1] none = false := by
  constructor
  · intro series nelems h d hd
    rw [is_ascending_series, List.all_eq_true] at h
    simpa using h d hd
  · norm_num [is_ascending_series, npDiff]

/-- Witness for C9: applies the theorem to the strictly ascending series
`[1, 2]`, whose one considered difference is positive. -/
theorem is_ascending_series_strict_witness :
    ∀ d ∈ npDiff ([(1 : ℚ), 2].take ((none : Option ℕ).getD [(1 : ℚ), 2].length)), 0 < d :=
  is_ascending_series_strict.1 [(1 : ℚ), 2] none (by norm_num [is_ascending_series, npDiff])

/-- Claim C10: for every series with fewer than two elements, the set of rounded
consecutive differences is empty, so it cannot have exactly one element and
`check_regular_series` returns `False` rather than vacuously `True`. -/
theorem check_regular_series_short (series : List ℚ) (tolerance_decimals : ℕ)
    (h : series.length < 2) :
    check_regular_series series tolerance_decimals = false := by
  rcases series with _ | ⟨a, _ | ⟨b, t⟩⟩
  · rfl
  · rfl
  · simp only [List.length_cons] at h
    omega

/-- Witness for C10: the empty series and a one-element series. -/
theorem check_regular_series_short_witness :
    check_regular_series [] 9 = false ∧ check_regular_series [(7 : ℚ)] 9 = false :=
  ⟨check_regular_series_short [] 9 (by norm_num),
    check_regular_series_short [(7 : ℚ)] 9 (by norm_num)⟩
